import Mathlib

/-!
Verification of the Network Address Registry
(`scripts/liquidation/liquidation_config.py`).

The source file is a single nested constant table mapping network names
("kovan", "mainnet") to maps from contract labels to address strings.
We embed it as nested association lists (preserving source order) and give
the registry the query interface the specification describes:
`lookup`, `networks`, `labels`.  Python dict lookup on string keys is
modelled by `alookup`, first-match search with decidable string equality;
the source dict literals have unique keys (proved below), so first-match
agrees with dict semantics.
-/

/-- The registry, transcribed 1:1 from the source: `"kovan"` block first,
then `"mainnet"`, each entry in source order. -/
def LiquidationConfig : List (String × List (String × String)) :=
  [ ("kovan",
      [ ("NotionalV2", "0x0EAE7BAdEF8f95De91fDDb74a89A786cF891Eb0e")
      , ("MockFlashLender", "0xFcdAe2109D5Fa3Fbe82E4FE03110966cA449057c")
      , ("AaveFlashLender", "0xe0fba4fc209b4948668006b2be61711b7f465bae")
      , ("LeakyFlashLender", "0xb3E6bBf0aC44965Ed5842d2feC2acCa89DB9C586")
      , ("WETH", "0xd0A1E359811322d97991E03f863a0C30C2cF029C")
      , ("DAI", "0x181d62ff8c0aeed5bc2bf77a88c07235c4cc6905")
      , ("USDC", "0xf503d5cd87d10ce8172f9e77f76ade8109037b4c")
      , ("WBTC", "0x45a8451ceaae5976b4ae5f14a7ad789fae8e9971")
      , ("ADAI", "0xFf795577d9AC8bD7D90Ee22b6C1703490b6512FD")
      , ("UniswapRouter", "0xE592427A0AEce92De3Edee1F18E0157C05861564")
      , ("cETH", "0x40575f9Eb401f63f66F4c434248ad83D3441bf61")
      , ("cDAI", "0x4dc87a3d30c4a1b33e4349f02f4c5b1b1ef9a75d")
      , ("cUSDC", "0xf17c5c7240cbc83d3186a9d6935f003e451c5cdd")
      , ("cWBTC", "0xa8e51e20985e926de882ee700ec7f7d51d89d130")
      , ("caDAI", "0xED36a75A9ca4f72ad0fD8f3FB56b2c9aA8ceA28d")
      , ("UniswapWETHDAI", "0x4ba1d028e053A53842Ce31b0357C5864B40Ef909")
      , ("NoteToken", "0xCFEAead4947f0705A14ec42aC3D44129E1Ef3eD5")
      ])
  , ("mainnet",
      [ ("NotionalV2", "0x1344A36A1B56144C3Bc62E7757377D288fDE0369")
      , ("AaveFlashLender", "0x7d2768dE32b0b80b7a3454c06BdAc94A69DDc7A9")
      , ("WETH", "0xC02aaA39b223FE8D0A0e5C4F27eAD9083C756Cc2")
      , ("DAI", "0x6B175474E89094C44Da98b954EedeAC495271d0F")
      , ("USDC", "0xA0b86991c6218b36c1d19D4a2e9Eb0cE3606eB48")
      , ("WBTC", "0x2260FAC5E5542a773Aa44fBCfeDf7C193bc2C599")
      , ("UniswapRouter", "0xE592427A0AEce92De3Edee1F18E0157C05861564")
      , ("cETH", "0x4ddc2d193948926d02f9b1fe9e1daa0718270ed5")
      , ("cDAI", "0x5d3a536e4d6dbd6114cc1ead35777bab948e3643")
      , ("cUSDC", "0x39aa39c021dfbae8fac545936693ac917d5e7563")
      , ("cWBTC", "0xC11b1268C1A384e55C48c2391d8d480264A3A7F4")
      , ("NoteToken", "0xCFEAead4947f0705A14ec42aC3D44129E1Ef3eD5")
      ])
  ]

/-- First-match association-list lookup with decidable string equality;
this is the dict-indexing semantics the external consumer applies to the
table (on a dict literal with unique keys, first match is the only match). -/
def alookup {β : Type} (k : String) : List (String × β) → Option β
  | [] => none
  | (k', v) :: rest => if k = k' then some v else alookup k rest

/-- `lookup(network, label)`: `some address` on success, `none` standing
for the `KeyNotFound` condition. -/
def lookup (network label : String) : Option String :=
  match alookup network LiquidationConfig with
  | none => none
  | some m => alookup label m

/-- `networks()`: the network identifiers of the registry, in source order. -/
def networks : List String := LiquidationConfig.map Prod.fst

/-- `labels(network)`: the contract labels defined for a network, in source
order; empty for an unknown network. -/
def labels (network : String) : List String :=
  match alookup network LiquidationConfig with
  | none => []
  | some m => m.map Prod.fst

/-- A character allowed after the `0x` prefix of an address. -/
def isHexChar (c : Char) : Bool :=
  (Char.ofNat 48 ≤ c && c ≤ Char.ofNat 57) ||
  (Char.ofNat 97 ≤ c && c ≤ Char.ofNat 102) ||
  (Char.ofNat 65 ≤ c && c ≤ Char.ofNat 70)

/-- A well-formed address string: `0x` followed by exactly 40 hexadecimal
characters, case-insensitive (the pattern `0x[0-9a-fA-F]\x7b40\x7d`). -/
def isValidAddress (s : String) : Bool :=
  s.toList.take 2 = ['0', 'x'] &&
  s.toList.length = 42 &&
  (s.toList.drop 2).all isHexChar

/-- C3: `lookup("mainnet", "WETH")` returns exactly the string
`"0xC02aaA39b223FE8D0A0e5C4F27eAD9083C756Cc2"`. -/
theorem lookup_mainnet_WETH :
    lookup "mainnet" "WETH" = some "0xC02aaA39b223FE8D0A0e5C4F27eAD9083C756Cc2" := by
  decide

/-- C4: the NoteToken address is shared across networks:
`lookup("kovan", "NoteToken")` equals `lookup("mainnet", "NoteToken")`
and both equal `"0xCFEAead4947f0705A14ec42aC3D44129E1Ef3eD5"`. -/
theorem noteToken_shared :
    lookup "kovan" "NoteToken" = lookup "mainnet" "NoteToken" ∧
    lookup "kovan" "NoteToken" = some "0xCFEAead4947f0705A14ec42aC3D44129E1Ef3eD5" := by
  constructor <;> decide

/-- C9: the Uniswap router address is shared across networks:
`lookup("kovan", "UniswapRouter")` equals `lookup("mainnet", "UniswapRouter")`
and both equal `"0xE592427A0AEce92De3Edee1F18E0157C05861564"`. -/
theorem uniswapRouter_shared :
    lookup "kovan" "UniswapRouter" = lookup "mainnet" "UniswapRouter" ∧
    lookup "kovan" "UniswapRouter" = some "0xE592427A0AEce92De3Edee1F18E0157C05861564" := by
  constructor <;> decide

/-- C5: `"MockFlashLender"`, `"LeakyFlashLender"` and `"UniswapWETHDAI"`
are labels of `"kovan"` and not of `"mainnet"`; in particular
`lookup("kovan", "MockFlashLender")` succeeds while
`lookup("mainnet", "MockFlashLender")` is `KeyNotFound`. -/
theorem kovan_only_labels :
    "MockFlashLender" ∈ labels "kovan" ∧ "MockFlashLender" ∉ labels "mainnet" ∧
    "LeakyFlashLender" ∈ labels "kovan" ∧ "LeakyFlashLender" ∉ labels "mainnet" ∧
    "UniswapWETHDAI" ∈ labels "kovan" ∧ "UniswapWETHDAI" ∉ labels "mainnet" ∧
    (lookup "kovan" "MockFlashLender").isSome = true ∧
    lookup "mainnet" "MockFlashLender" = none := by
  refine ⟨by decide, by decide, by decide, by decide, by decide, by decide, by decide, by decide⟩

/-- C1: for every network `n` in the registry and every label `l` in
`labels(n)`, `lookup(n, l)` returns a string matching the pattern
`0x[0-9a-fA-F]\x7b40\x7d` (`Option.any` makes the conclusion
"`lookup n l` is `some a` with `isValidAddress a`"). -/
theorem lookup_address_wellformed (n : String) (hn : n ∈ networks)
    (l : String) (hl : l ∈ labels n) :
    (lookup n l).any isValidAddress = true := by
  revert hl
  revert l
  revert hn
  revert n
  decide

/-- Witness for C1 at network `"kovan"`, label `"WETH"`. -/
theorem lookup_address_wellformed_witness :
    ("kovan" ∈ networks ∧ "WETH" ∈ labels "kovan") ∧
    (lookup "kovan" "WETH").any isValidAddress = true :=
  ⟨⟨by decide, by decide⟩,
    lookup_address_wellformed "kovan" (by decide) "WETH" (by decide)⟩

/-- C6: `networks()` is exactly the two-element set
consisting of `"kovan"` and `"mainnet"`. -/
theorem networks_fixed :
    networks = ["kovan", "mainnet"] ∧
    ∀ n : String, n ∈ networks ↔ (n = "kovan" ∨ n = "mainnet") := by
  refine ⟨by decide, fun n => ?_⟩
  show n ∈ ["kovan", "mainnet"] ↔ _
  simp

/-- C7: for every network `n` in `networks()`, `labels(n)` is non-empty. -/
theorem labels_nonempty (n : String) (hn : n ∈ networks) : labels n ≠ [] := by
  revert hn
  revert n
  decide

/-- Witness for C7 at network `"mainnet"`. -/
theorem labels_nonempty_witness :
    ("mainnet" ∈ networks) ∧ labels "mainnet" ≠ [] :=
  ⟨by decide, labels_nonempty "mainnet" (by decide)⟩

/-- C10: `labels("mainnet")` is a strict subset of `labels("kovan")`:
every mainnet label is also a kovan label, and kovan has a label that
mainnet lacks. -/
theorem mainnet_labels_strict_subset :
    (∀ l ∈ labels "mainnet", l ∈ labels "kovan") ∧
    (∃ l ∈ labels "kovan", l ∉ labels "mainnet") := by
  constructor
  · decide
  · decide

/-- `alookup` succeeds exactly on the keys of the association list. -/
theorem alookup_isSome {β : Type} (k : String) (m : List (String × β)) :
    (alookup k m).isSome = true ↔ k ∈ m.map Prod.fst := by
  induction m with
  | nil => simp [alookup]
  | cons p rest ih =>
    obtain ⟨k', v⟩ := p
    by_cases h : k = k'
    · subst h; simp [alookup]
    · simp [alookup, h, ih]

/-- `alookup` fails exactly off the keys of the association list. -/
theorem alookup_eq_none {β : Type} (k : String) (m : List (String × β)) :
    alookup k m = none ↔ k ∉ m.map Prod.fst := by
  rw [← alookup_isSome]
  cases alookup k m <;> simp

/-- On an association list with unique keys, `alookup` returns a value iff
the pair is an entry of the list. -/
theorem alookup_eq_some {β : Type} (k : String) (m : List (String × β))
    (hm : (m.map Prod.fst).Nodup) (v : β) :
    alookup k m = some v ↔ (k, v) ∈ m := by
  induction m with
  | nil => simp [alookup]
  | cons p rest ih =>
    obtain ⟨k', v'⟩ := p
    simp only [List.map_cons, List.nodup_cons] at hm
    by_cases h : k = k'
    · subst h
      have hl : alookup k ((k, v') :: rest) = some v' := by simp [alookup]
      rw [hl]
      simp only [List.mem_cons, Option.some.injEq, Prod.mk.injEq]
      constructor
      · rintro rfl; exact Or.inl ⟨trivial, rfl⟩
      · rintro (⟨-, rfl⟩ | hmem)
        · rfl
        · exact absurd (List.mem_map_of_mem Prod.fst hmem) hm.1
    · simp only [alookup, if_neg h, List.mem_cons, ih hm.2, Prod.mk.injEq]
      constructor
      · exact fun hmem => Or.inr hmem
      · rintro (⟨rfl, -⟩ | hmem)
        · exact absurd rfl h
        · exact hmem

/-- C2: `lookup(network, label)` returns exactly the address stored in the
registry for that pair when both keys are present (never a default or
fallback value), and is `KeyNotFound` (`none`) iff the network or the
label is absent. -/
theorem lookup_correct (n l : String) :
    (∀ a : String, lookup n l = some a ↔
      ∃ m, (n, m) ∈ LiquidationConfig ∧ (l, a) ∈ m) ∧
    (lookup n l = none ↔ (n ∉ networks ∨ l ∉ labels n)) := by
  have hreg : (LiquidationConfig.map Prod.fst).Nodup := by decide
  have hmaps : ∀ p ∈ LiquidationConfig, (p.2.map Prod.fst).Nodup := by decide
  cases h : alookup n LiquidationConfig with
  | none =>
    have hn : n ∉ networks := by
      rw [show networks = LiquidationConfig.map Prod.fst from rfl,
        ← alookup_eq_none]
      exact h
    constructor
    · intro a
      constructor
      · intro hsome
        rw [lookup, h] at hsome
        exact absurd hsome (by simp)
      · rintro ⟨m, hm, -⟩
        have := (alookup_eq_some n LiquidationConfig hreg m).2 hm
        rw [h] at this
        exact absurd this (by simp)
    · constructor
      · intro _; exact Or.inl hn
      · intro _; rw [lookup, h]
  | some m =>
    have hmem : (n, m) ∈ LiquidationConfig :=
      (alookup_eq_some n LiquidationConfig hreg m).1 h
    have hnodup : (m.map Prod.fst).Nodup := hmaps (n, m) hmem
    have hn : n ∈ networks := by
      rw [show networks = LiquidationConfig.map Prod.fst from rfl,
        ← alookup_isSome, h]
      rfl
    have hlook : lookup n l = alookup l m := by rw [lookup, h]
    have hlab : labels n = m.map Prod.fst := by rw [labels, h]
    constructor
    · intro a
      rw [hlook, alookup_eq_some l m hnodup a]
      constructor
      · intro hla; exact ⟨m, hmem, hla⟩
      · rintro ⟨m', hm', hla'⟩
        have : alookup n LiquidationConfig = some m' :=
          (alookup_eq_some n LiquidationConfig hreg m').2 hm'
        rw [h, Option.some.injEq] at this
        rw [this]
        exact hla'
    · rw [hlook, alookup_eq_none, ← hlab]
      constructor
      · intro hl; exact Or.inr hl
      · rintro (hn' | hl)
        · exact absurd hn hn'
        · exact hl

/-- Witness for C2 at network `"mainnet"`, label `"ADAI"` (absent there). -/
theorem lookup_correct_witness : lookup "mainnet" "ADAI" = none :=
  (lookup_correct "mainnet" "ADAI").2.mpr (Or.inr (by decide))

/-- Splits a character list on a separator character (structural recursion,
so that parsing evaluates inside the kernel). -/
def splitOnChar (c : Char) : List Char → List (List Char)
  | [] => [[]]
  | x :: xs =>
    if x = c then [] :: splitOnChar c xs
    else
      match splitOnChar c xs with
      | [] => [[x]]
      | g :: gs => (x :: g) :: gs

/-- Modelled from the spec: the repository itself defines no serializer
(spec section 6: "no serialization/deserialization step"); the round-trip
property of spec section 8 speaks of "a structured format (e.g., key-value
document)".  We model that document as plain text with one
`network<SPACE>label<SPACE>address` line per registry entry, in registry
order. -/
def serializeNet (n : String) : List (String × String) → List Char
  | [] => []
  | (l, a) :: rest =>
      n.toList ++ (' ' :: l.toList) ++ (' ' :: a.toList) ++
        ('\n' :: serializeNet n rest)

/-- Modelled from the spec: serializes the whole registry to the key-value
document of `serializeNet`, one network block after the other. -/
def serializeRegistry (r : List (String × List (String × String))) : String :=
  String.mk (r.foldr (fun p acc => serializeNet p.1 p.2 ++ acc) [])

/-- Modelled from the spec: parses one `network label address` line of the
key-value document; `none` on a malformed line. -/
def parseLine (cs : List Char) : Option (String × String × String) :=
  match splitOnChar ' ' cs with
  | [n, l, a] => some (String.mk n, String.mk l, String.mk a)
  | _ => none

/-- Modelled from the spec: inserts one parsed entry into a registry value,
appending to the network's block when it exists and opening a new block
otherwise. -/
def insertEntry (n l a : String) :
    List (String × List (String × String)) →
      List (String × List (String × String))
  | [] => [(n, [(l, a)])]
  | (n', m) :: rest =>
      if n = n' then (n', m ++ [(l, a)]) :: rest
      else (n', m) :: insertEntry n l a rest

/-- Modelled from the spec: parses a key-value document back into a registry
mapping, failing (`none`) on any malformed line. -/
def parseRegistry (s : String) : Option (List (String × List (String × String))) :=
  (((splitOnChar '\n' s.toList).filter (fun cs => !cs.isEmpty)).foldl
    (fun acc cs =>
      acc.bind fun r => (parseLine cs).map fun e => insertEntry e.1 e.2.1 e.2.2 r)
    (some []))

/-- C8: serializing the registry to the structured key-value document and
parsing the result back yields a mapping identical to the original
registry. -/
theorem serialize_parse_roundtrip :
    parseRegistry (serializeRegistry LiquidationConfig) = some LiquidationConfig := by
  decide
